import Mathlib

/-!
Shallow embedding of the access-control and task-lifecycle core of the
Minimal Project Management System backend (Express + Prisma, TypeScript).

Sources embedded:
  - src/src/controllers/auth.controller.ts   (register, login, oauth, refreshToken)
  - src/src/controllers/task.controller.ts   (getTasks, getTaskById, createTask, updateTask)
  - src/src/controllers/timelog.controller.ts, embedded project controller (getProjects)
  - src/src/middleware/auth.middleware.ts    (authenticate)
  - src/unnamed/part_013                     (utils/jwt.ts: generateAccessToken, ...)
  - src/unnamed/part_012                     (utils/oauth-verification.ts: verifyGoogleToken)
  - src/unnamed/part_015                     (services/auth.service.ts: handleOAuth)
  - src/src/config/env.ts                    (config.jwt)

Modelling conventions: ids are Nat; the Prisma store is an explicit DB record
threaded through each handler; Date, float estimate fields and pagination
(skip/take) are omitted as orthogonal to the verified properties; the
jsonwebtoken library is modelled symbolically (a signed token records its
payload, the secret used, and its expiry instant; verification succeeds
exactly when the secret matches and the token is unexpired); bcrypt is
modelled as a deterministic injective placeholder hash.
-/

namespace PMS

/-- Role enum from generated/prisma/enums (UserRole). -/
inductive UserRole
  | Admin
  | Manager
  | Member
deriving DecidableEq, Repr

/-- Task status enum from generated/prisma/enums (TaskStatus). -/
inductive TaskStatus
  | ToDo
  | InProgress
  | Review
  | Done
deriving DecidableEq, Repr

/-- Task priority enum from generated/prisma/enums (TaskPriority). -/
inductive TaskPriority
  | Low
  | Medium
  | High
  | Critical
deriving DecidableEq, Repr

/-- Project status enum from the project validation schema. -/
inductive ProjectStatus
  | planned
  | active
  | completed
  | archived
deriving DecidableEq, Repr

/-- Error taxonomy of the core (spec section 7); handlers in the source signal
these as HTTP status codes plus message strings. -/
inductive AuthError
  | InvalidCredentials
  | AccountInactive
  | ProviderVerificationFailed
  | InvalidOrExpiredToken
  | UserNotFound
  | Forbidden
  | ForbiddenAssignment
  | NoToken
  | Conflict
  | NotFound
deriving DecidableEq, Repr

/-- User row (prisma User model, fields relevant to the core). -/
structure User where
  id : Nat
  email : String
  password : String
  name : String
  role : UserRole
  department : Option String
  skills : List String
  avatar : Option String
  isActive : Bool
deriving DecidableEq, Repr

/-- Task row (prisma Task model; Date dueDate and float estimate omitted,
they follow the same guarded-assignment pattern as the fields kept). -/
structure Task where
  id : Nat
  title : String
  description : Option String
  status : TaskStatus
  priority : TaskPriority
  sprintId : Nat
  creatorId : Nat
deriving DecidableEq, Repr

/-- TaskAssignment join row (prisma TaskAssignment). -/
structure TaskAssignment where
  taskId : Nat
  userId : Nat
deriving DecidableEq, Repr

/-- ActivityLog row (prisma ActivityLog; metadata kept as the old/new status
pair written by the status-change path). -/
structure ActivityLog where
  type : String
  description : String
  taskId : Nat
  userId : Nat
  metadata : Option (TaskStatus × TaskStatus)
deriving DecidableEq, Repr

/-- Sprint row (prisma Sprint, fields the task/project queries touch). -/
structure Sprint where
  id : Nat
  projectId : Nat
deriving DecidableEq, Repr

/-- Project row (prisma Project, fields the project query touches). -/
structure Project where
  id : Nat
  title : String
  client : String
  description : Option String
  status : ProjectStatus
  creatorId : Nat
  managerId : Nat
deriving DecidableEq, Repr

/-- The relational store, threaded explicitly through each handler.
nextId models id generation for created rows. -/
structure DB where
  users : List User
  tasks : List Task
  assignments : List TaskAssignment
  activities : List ActivityLog
  sprints : List Sprint
  projects : List Project
  nextId : Nat
deriving Repr

/-- Token payload (src/src/types: TokenPayload plus the name field the
controllers add). -/
structure TokenPayload where
  id : Nat
  email : String
  role : UserRole
  name : String
deriving DecidableEq, Repr

/-- Authentication method tag (utils/jwt.ts AuthMethod). -/
inductive AuthMethod
  | credentials
  | oauth
deriving DecidableEq, Repr

/-- JWT configuration (config.jwt of src/src/config/env.ts). The env defaults
make every expiry field present, so the JS fallback chains collapse to the
method-specific field; expiries are modelled in seconds. -/
structure Config where
  secret : String
  refreshSecret : String
  credAccessExpiry : Nat
  credRefreshExpiry : Nat
  oauthAccessExpiry : Nat
  oauthRefreshExpiry : Nat
deriving DecidableEq, Repr

/-- Symbolic model of a signed JWT: the payload, the secret it was signed
with, and the instant it expires. -/
structure Token where
  payload : TokenPayload
  secret : String
  exp : Nat
deriving DecidableEq, Repr

/-- utils/jwt.ts generateAccessToken: signs the payload with config.jwt.secret
and the method-specific access expiry (customExpiry wins when supplied). -/
def generateAccessToken (payload : TokenPayload) (method : AuthMethod)
    (customExpiry : Option Nat) (cfg : Config) (now : Nat) : Token :=
  let expiry := customExpiry.getD
    (match method with
     | .oauth => cfg.oauthAccessExpiry
     | .credentials => cfg.credAccessExpiry)
  { payload := payload, secret := cfg.secret, exp := now + expiry }

/-- utils/jwt.ts generateRefreshToken: signs with config.jwt.refreshSecret and
the method-specific refresh expiry. -/
def generateRefreshToken (payload : TokenPayload) (method : AuthMethod)
    (customExpiry : Option Nat) (cfg : Config) (now : Nat) : Token :=
  let expiry := customExpiry.getD
    (match method with
     | .oauth => cfg.oauthRefreshExpiry
     | .credentials => cfg.credRefreshExpiry)
  { payload := payload, secret := cfg.refreshSecret, exp := now + expiry }

/-- utils/jwt.ts verifyAccessToken: jwt.verify against config.jwt.secret;
any signature or expiry failure is collapsed to one error. -/
def verifyAccessToken (t : Token) (cfg : Config) (now : Nat) :
    Except AuthError TokenPayload :=
  if t.secret == cfg.secret && now < t.exp then .ok t.payload
  else .error .InvalidOrExpiredToken

/-- utils/jwt.ts verifyRefreshToken: jwt.verify against
config.jwt.refreshSecret. -/
def verifyRefreshToken (t : Token) (cfg : Config) (now : Nat) :
    Except AuthError TokenPayload :=
  if t.secret == cfg.refreshSecret && now < t.exp then .ok t.payload
  else .error .InvalidOrExpiredToken

/-- utils/password.ts hashPassword (bcrypt), modelled as a deterministic
injective placeholder. -/
def hashPassword (plain : String) : String := "bcrypt$" ++ plain

/-- utils/password.ts comparePassword (bcrypt.compare). -/
def comparePassword (plain stored : String) : Bool :=
  stored == hashPassword plain

/-- The token payload every controller builds from a user row
(id, email, role, name). -/
def payloadOf (u : User) : TokenPayload :=
  { id := u.id, email := u.email, role := u.role, name := u.name }

/-- Request body of POST /auth/register after zod validation
(registerSchema: role is an optional member of the role enum). -/
structure RegisterData where
  email : String
  password : String
  name : String
  role : Option UserRole
  department : Option String
  skills : Option (List String)
deriving Repr

/-- auth.controller.ts register: duplicate email is rejected; otherwise the
user is created with the requested role (defaulting to Member) and
isActive set to false. -/
def register (data : RegisterData) (db : DB) : Except AuthError (User × DB) :=
  if db.users.any (fun u => u.email == data.email) then
    .error .Conflict
  else
    let u : User :=
      { id := db.nextId
        email := data.email
        password := hashPassword data.password
        name := data.name
        role := data.role.getD .Member
        department := data.department
        skills := data.skills.getD []
        avatar := none
        isActive := false }
    .ok (u, { db with users := db.users ++ [u], nextId := db.nextId + 1 })

/-- Request body of POST /auth/login. -/
structure LoginCredentials where
  email : String
  password : String
deriving Repr

/-- auth.controller.ts login: finds the user by email, compares the password,
and on success issues credentials-method access and refresh tokens.
The source performs no isActive check on this path. -/
def login (creds : LoginCredentials) (db : DB) (cfg : Config) (now : Nat) :
    Except AuthError (User × Token × Token) :=
  match db.users.find? (fun u => u.email == creds.email) with
  | none => .error .InvalidCredentials
  | some u =>
    if comparePassword creds.password u.password then
      .ok (u, generateAccessToken (payloadOf u) .credentials none cfg now,
            generateRefreshToken (payloadOf u) .credentials none cfg now)
    else .error .InvalidCredentials

/-- The Authorization header as the middleware sees it: absent, present but
not of the Bearer shape, or a bearer token. -/
inductive AuthHeader
  | missing
  | notBearer
  | bearer (t : Token)
deriving Repr

/-- The authenticated principal placed on req.user by the middleware. -/
structure Actor where
  id : Nat
  email : String
  role : UserRole
  name : String
deriving DecidableEq, Repr

/-- auth.middleware.ts authenticate: requires a Bearer header, verifies the
access token, then re-reads the user row by payload id (selecting only id,
email, role, name — the isActive flag is not consulted). -/
def authenticate (h : AuthHeader) (db : DB) (cfg : Config) (now : Nat) :
    Except AuthError Actor :=
  match h with
  | .missing => .error .NoToken
  | .notBearer => .error .NoToken
  | .bearer t =>
    match verifyAccessToken t cfg now with
    | .error _ => .error .InvalidOrExpiredToken
    | .ok payload =>
      match db.users.find? (fun u => u.id == payload.id) with
      | none => .error .UserNotFound
      | some u => .ok { id := u.id, email := u.email, role := u.role, name := u.name }

/-- JS string truthiness for an optional string field: present and nonempty. -/
def strTruthy : Option String → Bool
  | some s => !(s == "")
  | none => false

/-- The identity a provider verification extracts
(services/auth.service.ts OAuthUserInfo). -/
structure OAuthUserInfo where
  email : String
  name : String
  picture : Option String
  emailVerified : Bool
deriving DecidableEq, Repr

/-- The claim set the Google library returns for an ID token
(ticket.getPayload(): possibly absent payload, optional claims). -/
structure GoogleClaims where
  present : Bool
  email : Option String
  name : Option String
  picture : Option String
  emailVerified : Bool
deriving DecidableEq, Repr

/-- utils/oauth-verification.ts verifyGoogleToken: rejects a missing payload,
then a missing email claim, then a missing name claim; every throw in the
source is wrapped into the provider-verification failure. -/
def verifyGoogleToken (c : GoogleClaims) : Except AuthError OAuthUserInfo :=
  if !c.present then .error .ProviderVerificationFailed
  else if !(strTruthy c.email) then .error .ProviderVerificationFailed
  else if !(strTruthy c.name) then .error .ProviderVerificationFailed
  else .ok { email := c.email.getD "", name := c.name.getD "",
             picture := c.picture, emailVerified := c.emailVerified }

/-- services/auth.service.ts handleOAuth, user-resolution step: find the user
by email; if absent, create a Member with a random unusable password
placeholder, the asserted avatar, and isActive false; if present, refresh the
avatar only when the asserted picture is truthy and differs. The source
performs no isActive check on this path. -/
def oauthResolveUser (info : OAuthUserInfo) (db : DB) : User × DB :=
  match db.users.find? (fun u => u.email == info.email) with
  | none =>
    let u : User :=
      { id := db.nextId
        email := info.email
        password := hashPassword "randomPlaceholder"
        name := info.name
        role := .Member
        department := none
        skills := []
        avatar := if strTruthy info.picture then info.picture else none
        isActive := false }
    (u, { db with users := db.users ++ [u], nextId := db.nextId + 1 })
  | some u =>
    if strTruthy info.picture && !(info.picture == u.avatar) then
      let u2 := { u with avatar := info.picture }
      (u2, { db with users := db.users.map (fun x => if x.id == u.id then u2 else x) })
    else (u, db)

/-- The value handleOAuth resolves to: the user plus an oauth-method token
pair. -/
structure AuthResult where
  user : User
  accessToken : Token
  refreshToken : Token
deriving Repr

/-- services/auth.service.ts handleOAuth (Google path): verify the provider
assertion, resolve or create the user, and issue oauth-method tokens.
Errors leave the store untouched. -/
def handleOAuth (claims : GoogleClaims) (db : DB) (cfg : Config) (now : Nat) :
    Except AuthError AuthResult × DB :=
  match verifyGoogleToken claims with
  | .error e => (.error e, db)
  | .ok info =>
    let (u, db2) := oauthResolveUser info db
    (.ok { user := u
           accessToken := generateAccessToken (payloadOf u) .oauth none cfg now
           refreshToken := generateRefreshToken (payloadOf u) .oauth none cfg now },
     db2)

/-- Request body of PUT /tasks/:id after zod validation (updateTaskSchema);
dueDate and estimate omitted per the Task model note. -/
structure UpdateTaskData where
  title : Option String
  description : Option String
  priority : Option TaskPriority
  status : Option TaskStatus
  assigneeIds : Option (List Nat)
deriving Repr

/-- Outcome of a task mutation handler, mirroring the HTTP statuses the
source returns. -/
inductive HandlerResult
  | ok
  | notFound (msg : String)
  | forbidden (msg : String)
  | badRequest (msg : String)
deriving DecidableEq, Repr

/-- prisma.task.findUnique by id. -/
def findTask (db : DB) (taskId : Nat) : Option Task :=
  db.tasks.find? (fun t => t.id == taskId)

/-- prisma.taskAssignment.findFirst for a (task, user) pair. -/
def isAssigned (db : DB) (taskId userId : Nat) : Bool :=
  db.assignments.any (fun a => a.taskId == taskId && a.userId == userId)

/-- The repeated role gate: req.user.role is Admin or Manager. -/
def isAdminOrManager (r : UserRole) : Bool :=
  r == .Admin || r == .Manager

/-- The updateData object of updateTask: title only when truthy, description
whenever present, priority when present, status only when the state machine
accepted the change. -/
def applyUpdateData (d : UpdateTaskData) (statusApplied : Option TaskStatus)
    (t : Task) : Task :=
  let t1 := match d.title with
    | some s => if s == "" then t else { t with title := s }
    | none => t
  let t2 := match d.description with
    | some s => { t1 with description := some s }
    | none => t1
  let t3 := match d.priority with
    | some p => { t2 with priority := p }
    | none => t2
  match statusApplied with
  | some s => { t3 with status := s }
  | none => t3

/-- task.controller.ts updateTask: 404 when absent; an ownership gate for
non-Admin/Manager callers; the Done-transition state machine; the status
activity log; the scalar field update; then the assignee rewrite guarded by
the Manager-cannot-assign-Admin rule. The order of effects follows the
source: the scalar update is persisted before the assignee rule is
evaluated. -/
def updateTask (actor : Actor) (taskId : Nat) (d : UpdateTaskData) (db : DB) :
    HandlerResult × DB :=
  match findTask db taskId with
  | none => (.notFound "Task not found", db)
  | some existingTask =>
    if !(isAdminOrManager actor.role)
        && !(existingTask.creatorId == actor.id)
        && !(isAssigned db taskId actor.id) then
      (.forbidden "Insufficient permissions", db)
    else
      let statusChange : Option TaskStatus :=
        match d.status with
        | some s => if s == existingTask.status then none else some s
        | none => none
      let gate : Option HandlerResult :=
        match statusChange with
        | some s =>
          if s == .Done && existingTask.status == .Review
              && !(isAdminOrManager actor.role) then
            some (.forbidden "Only Managers or Admins can approve tasks in Review status to mark them as Done")
          else if s == .Done && !(existingTask.status == .Review)
              && !(isAdminOrManager actor.role) then
            some (.badRequest "Task must be in Review status before it can be marked as Done. Please move it to Review first.")
          else none
        | none => none
      match gate with
      | some r => (r, db)
      | none =>
        let db1 : DB := match statusChange with
          | some s =>
            { db with activities := db.activities ++
                [{ type := "status_changed"
                   description := "Task status changed"
                   taskId := taskId
                   userId := actor.id
                   metadata := some (existingTask.status, s) }] }
          | none => db
        let newTask := applyUpdateData d statusChange existingTask
        let db2 := { db1 with
          tasks := db1.tasks.map (fun t => if t.id == taskId then newTask else t) }
        match d.assigneeIds with
        | none => (.ok, db2)
        | some ids =>
          if actor.role == .Manager
              && db2.users.any (fun u => ids.contains u.id && u.role == .Admin) then
            (.forbidden "Managers cannot assign tasks to Administrators", db2)
          else
            let db3 := { db2 with
              assignments := db2.assignments.filter (fun a => !(a.taskId == taskId)) }
            if ids.isEmpty then (.ok, db3)
            else
              let db4 := { db3 with
                assignments := db3.assignments ++
                  ids.map (fun uid => { taskId := taskId, userId := uid })
                activities := db3.activities ++
                  [{ type := "assigned"
                     description := "Task assignees updated"
                     taskId := taskId
                     userId := actor.id
                     metadata := none }] }
              (.ok, db4)

/-- Query parameters of GET /tasks (TaskFilters in src/src/types). -/
structure TaskFilters where
  projectId : Option Nat
  sprintId : Option Nat
  assigneeId : Option Nat
  status : Option TaskStatus
  priority : Option TaskPriority
  search : Option String
deriving Repr

/-- The OR clause of the task where object: either the two-field search
disjunction or the ownership disjunction; the source stores both under the
single key where.OR, so the second write overwrites the first. -/
inductive TaskOrClause
  | search (s : String)
  | ownership (userId : Nat)
deriving DecidableEq, Repr

/-- The where object getTasks builds. -/
structure TaskWhere where
  sprintId : Option Nat
  projectId : Option Nat
  assigneeId : Option Nat
  status : Option TaskStatus
  priority : Option TaskPriority
  orClause : Option TaskOrClause
deriving Repr

/-- task.controller.ts getTasks, where-construction: each present filter adds
a conjunct; a truthy search sets where.OR; a non-Admin/Manager caller then
overwrites where.OR with the ownership disjunction. -/
def buildTaskWhere (actor : Actor) (f : TaskFilters) : TaskWhere :=
  let w : TaskWhere :=
    { sprintId := f.sprintId
      projectId := f.projectId
      assigneeId := f.assigneeId
      status := f.status
      priority := f.priority
      orClause := none }
  let w1 := match f.search with
    | some s => if s == "" then w else { w with orClause := some (.search s) }
    | none => w
  if !(isAdminOrManager actor.role) then
    { w1 with orClause := some (.ownership actor.id) }
  else w1

/-- Substring search on character lists. -/
def charsContains (needle : List Char) : List Char → Bool
  | [] => needle.isEmpty
  | c :: tl => needle.isPrefixOf (c :: tl) || charsContains needle tl

/-- Case-insensitive substring test (prisma contains, mode insensitive). -/
def containsCI (hay needle : String) : Bool :=
  charsContains needle.toLower.toList hay.toLower.toList

/-- The ownership disjunction for tasks: creator or direct assignee. -/
def taskOwnershipB (db : DB) (uid : Nat) (t : Task) : Bool :=
  t.creatorId == uid
    || db.assignments.any (fun a => a.taskId == t.id && a.userId == uid)

/-- Evaluation of the task where object against one task row. -/
def matchesTaskWhere (db : DB) (w : TaskWhere) (t : Task) : Bool :=
  (match w.sprintId with | some v => t.sprintId == v | none => true)
  && (match w.projectId with
      | some v =>
        (match db.sprints.find? (fun sp => sp.id == t.sprintId) with
         | some sp => sp.projectId == v
         | none => false)
      | none => true)
  && (match w.assigneeId with
      | some v => db.assignments.any (fun a => a.taskId == t.id && a.userId == v)
      | none => true)
  && (match w.status with | some v => t.status == v | none => true)
  && (match w.priority with | some v => t.priority == v | none => true)
  && (match w.orClause with
      | some (.search s) =>
        containsCI t.title s
          || (match t.description with
              | some dsc => containsCI dsc s
              | none => false)
      | some (.ownership uid) => taskOwnershipB db uid t
      | none => true)

/-- task.controller.ts getTasks: the rows prisma.task.findMany(where)
returns (pagination is orthogonal and omitted). -/
def getTasks (actor : Actor) (f : TaskFilters) (db : DB) : List Task :=
  db.tasks.filter (matchesTaskWhere db (buildTaskWhere actor f))

/-- task.controller.ts getTaskById: 404 when absent; non-Admin/Manager
callers are denied unless creator or assignee. -/
def getTaskById (actor : Actor) (taskId : Nat) (db : DB) : Except AuthError Task :=
  match findTask db taskId with
  | none => .error .NotFound
  | some t =>
    if !(isAdminOrManager actor.role) then
      if t.creatorId == actor.id || isAssigned db t.id actor.id then .ok t
      else .error .Forbidden
    else .ok t

/-- Query parameters of GET /projects. -/
structure ProjectFilters where
  status : Option ProjectStatus
  client : Option String
  search : Option String
deriving Repr

/-- The OR clause of the project where object; as for tasks, the ownership
write overwrites the search write. -/
inductive ProjectOrClause
  | search (s : String)
  | ownership (userId : Nat)
deriving DecidableEq, Repr

/-- The where object getProjects builds. -/
structure ProjectWhere where
  status : Option ProjectStatus
  client : Option String
  orClause : Option ProjectOrClause
deriving Repr

/-- Project controller getProjects, where-construction: status and client
conjuncts, a truthy search OR, then for every non-Admin caller (Managers
included) the ownership OR overwrite. -/
def buildProjectWhere (actor : Actor) (f : ProjectFilters) : ProjectWhere :=
  let clientW := match f.client with
    | some c => if c == "" then none else some c
    | none => none
  let w : ProjectWhere := { status := f.status, client := clientW, orClause := none }
  let w1 := match f.search with
    | some s => if s == "" then w else { w with orClause := some (.search s) }
    | none => w
  if !(actor.role == .Admin) then
    { w1 with orClause := some (.ownership actor.id) }
  else w1

/-- The ownership disjunction for projects: creator, project manager, or
transitively an assignee of a task in one of the project sprints. -/
def projectOwnershipB (db : DB) (uid : Nat) (p : Project) : Bool :=
  p.creatorId == uid || p.managerId == uid
    || db.sprints.any (fun sp => sp.projectId == p.id
         && db.tasks.any (fun t => t.sprintId == sp.id
              && db.assignments.any (fun a => a.taskId == t.id && a.userId == uid)))

/-- Evaluation of the project where object against one project row. -/
def matchesProjectWhere (db : DB) (w : ProjectWhere) (p : Project) : Bool :=
  (match w.status with | some v => p.status == v | none => true)
  && (match w.client with
      | some c => containsCI p.client c
      | none => true)
  && (match w.orClause with
      | some (.search s) =>
        containsCI p.title s || containsCI p.client s
          || (match p.description with
              | some dsc => containsCI dsc s
              | none => false)
      | some (.ownership uid) => projectOwnershipB db uid p
      | none => true)

/-- Project controller getProjects: the rows the where object accepts. -/
def getProjects (actor : Actor) (f : ProjectFilters) (db : DB) : List Project :=
  db.projects.filter (matchesProjectWhere db (buildProjectWhere actor f))

/-! Concrete fixtures used by witnesses and counterexamples. -/

/-- A sample signing configuration with distinct secrets. -/
def cfg0 : Config :=
  { secret := "s", refreshSecret := "r", credAccessExpiry := 1200,
    credRefreshExpiry := 604800, oauthAccessExpiry := 3600,
    oauthRefreshExpiry := 2592000 }

/-- A deactivated Member whose stored hash matches the password pw. -/
def uMem : User :=
  { id := 1, email := "m@x.com", password := hashPassword "pw", name := "M",
    role := .Member, department := none, skills := [], avatar := none,
    isActive := false }

/-- An active Manager. -/
def uMgr : User :=
  { id := 2, email := "g@x.com", password := hashPassword "pw2", name := "G",
    role := .Manager, department := none, skills := [], avatar := none,
    isActive := true }

/-- An active Admin. -/
def uAdm : User :=
  { id := 3, email := "a@x.com", password := hashPassword "pw3", name := "A",
    role := .Admin, department := none, skills := [], avatar := none,
    isActive := true }

/-- A ToDo task created by the Member. -/
def t10 : Task :=
  { id := 10, title := "a", description := none, status := .ToDo,
    priority := .Medium, sprintId := 100, creatorId := 1 }

/-- A small store: three users, one task, one sprint, one project. -/
def db0 : DB :=
  { users := [uMem, uMgr, uAdm], tasks := [t10], assignments := [],
    activities := [], sprints := [{ id := 100, projectId := 200 }],
    projects := [{ id := 200, title := "P", client := "C", description := none,
                   status := .active, creatorId := 3, managerId := 2 }],
    nextId := 50 }

/-- The Member as an authenticated principal. -/
def memActor : Actor := { id := 1, email := "m@x.com", role := .Member, name := "M" }

/-- The Manager as an authenticated principal. -/
def mgrActor : Actor := { id := 2, email := "g@x.com", role := .Manager, name := "G" }

/-- An update body with every field absent. -/
def emptyUpd : UpdateTaskData :=
  { title := none, description := none, priority := none, status := none,
    assigneeIds := none }

/-- Task filters with every parameter absent. -/
def noTaskFilters : TaskFilters :=
  { projectId := none, sprintId := none, assigneeId := none, status := none,
    priority := none, search := none }

/-- Project filters with every parameter absent. -/
def noProjectFilters : ProjectFilters :=
  { status := none, client := none, search := none }

/-- A task created by the Manager, with no assignees. -/
def t11 : Task :=
  { id := 11, title := "other", description := none, status := .ToDo,
    priority := .Low, sprintId := 100, creatorId := 2 }

/-- The store db0 extended with the Manager-created task. -/
def dbB : DB := { db0 with tasks := [t10, t11] }

/-- Google claims resolving to the stored Member identity. -/
def claimsMem : GoogleClaims :=
  { present := true, email := some "m@x.com", name := some "M",
    picture := none, emailVerified := true }

/-- Google claims for an identity not yet stored. -/
def claimsFresh : GoogleClaims :=
  { present := true, email := some "new@x.com", name := some "N",
    picture := some "pic", emailVerified := true }

/-! Theorems. -/

/-- C6. Token round-trip, for both kinds: a token issued for a user and
verified with the matching kind and secret yields exactly the issuing
payload (id, email, role); an expired token of either kind, a token signed
with a different secret than the kind expects, a refresh token verified as
an access token, and an access token verified as a refresh token (the last
two when the two secrets differ) all fail with InvalidOrExpiredToken and
return no payload. -/
theorem token_roundtrip_and_rejection (u : User) (method : AuthMethod)
    (cfg : Config) (now now2 : Nat) (t : Token) :
    (now2 < (generateAccessToken (payloadOf u) method none cfg now).exp →
      verifyAccessToken (generateAccessToken (payloadOf u) method none cfg now) cfg now2
        = .ok (payloadOf u)
      ∧ (payloadOf u).id = u.id ∧ (payloadOf u).email = u.email
        ∧ (payloadOf u).role = u.role)
    ∧ ((generateAccessToken (payloadOf u) method none cfg now).exp ≤ now2 →
      verifyAccessToken (generateAccessToken (payloadOf u) method none cfg now) cfg now2
        = .error .InvalidOrExpiredToken)
    ∧ (t.secret ≠ cfg.secret →
      verifyAccessToken t cfg now2 = .error .InvalidOrExpiredToken)
    ∧ (cfg.secret ≠ cfg.refreshSecret →
      verifyAccessToken (generateRefreshToken (payloadOf u) method none cfg now) cfg now2
        = .error .InvalidOrExpiredToken)
    ∧ (now2 < (generateRefreshToken (payloadOf u) method none cfg now).exp →
      verifyRefreshToken (generateRefreshToken (payloadOf u) method none cfg now) cfg now2
        = .ok (payloadOf u))
    ∧ ((generateRefreshToken (payloadOf u) method none cfg now).exp ≤ now2 →
      verifyRefreshToken (generateRefreshToken (payloadOf u) method none cfg now) cfg now2
        = .error .InvalidOrExpiredToken)
    ∧ (t.secret ≠ cfg.refreshSecret →
      verifyRefreshToken t cfg now2 = .error .InvalidOrExpiredToken)
    ∧ (cfg.secret ≠ cfg.refreshSecret →
      verifyRefreshToken (generateAccessToken (payloadOf u) method none cfg now) cfg now2
        = .error .InvalidOrExpiredToken) := by
  refine ⟨fun h => ⟨?_, rfl, rfl, rfl⟩, fun h => ?_, fun h => ?_, fun h => ?_,
          fun h => ?_, fun h => ?_, fun h => ?_, fun h => ?_⟩
  · simp only [generateAccessToken, verifyAccessToken, Option.getD_none] at h ⊢
    simp [h]
  · simp only [generateAccessToken, verifyAccessToken, Option.getD_none] at h ⊢
    simp [Nat.not_lt.mpr h]
  · simp [verifyAccessToken, h]
  · simp only [generateRefreshToken, verifyAccessToken]
    have hne : cfg.refreshSecret ≠ cfg.secret := fun hh => h hh.symm
    simp [hne]
  · simp only [generateRefreshToken, verifyRefreshToken, Option.getD_none] at h ⊢
    simp [h]
  · simp only [generateRefreshToken, verifyRefreshToken, Option.getD_none] at h ⊢
    simp [Nat.not_lt.mpr h]
  · simp [verifyRefreshToken, h]
  · simp only [generateAccessToken, verifyRefreshToken]
    simp [h]

/-- Witness for C6 at a concrete user and configuration: both round trips,
both expiries, and both cross-kind rejections. -/
theorem token_roundtrip_and_rejection_witness :
    verifyAccessToken (generateAccessToken (payloadOf uMem) .oauth none cfg0 0) cfg0 100
      = .ok (payloadOf uMem)
    ∧ verifyAccessToken (generateAccessToken (payloadOf uMem) .oauth none cfg0 0) cfg0 4000
      = .error .InvalidOrExpiredToken
    ∧ verifyAccessToken (generateRefreshToken (payloadOf uMem) .oauth none cfg0 0) cfg0 100
      = .error .InvalidOrExpiredToken
    ∧ verifyRefreshToken (generateRefreshToken (payloadOf uMem) .oauth none cfg0 0) cfg0 100
      = .ok (payloadOf uMem)
    ∧ verifyRefreshToken (generateRefreshToken (payloadOf uMem) .oauth none cfg0 0) cfg0 3000000
      = .error .InvalidOrExpiredToken
    ∧ verifyRefreshToken (generateAccessToken (payloadOf uMem) .oauth none cfg0 0) cfg0 100
      = .error .InvalidOrExpiredToken := by
  have h := token_roundtrip_and_rejection uMem .oauth cfg0 0 100
    (generateRefreshToken (payloadOf uMem) .oauth none cfg0 0)
  have h2 := token_roundtrip_and_rejection uMem .oauth cfg0 0 4000
    (generateRefreshToken (payloadOf uMem) .oauth none cfg0 0)
  have h3 := token_roundtrip_and_rejection uMem .oauth cfg0 0 3000000
    (generateRefreshToken (payloadOf uMem) .oauth none cfg0 0)
  exact ⟨(h.1 (by decide)).1, h2.2.1 (by decide), h.2.2.2.1 (by decide),
         h.2.2.2.2.1 (by decide), h3.2.2.2.2.2.1 (by decide),
         h.2.2.2.2.2.2.2 (by decide)⟩

/-- C7. An OAuth assertion whose verified claims lack an email fails with
ProviderVerificationFailed and leaves the user table untouched: no row is
created or modified. -/
theorem oauth_missing_email_rejected (claims : GoogleClaims) (db : DB)
    (cfg : Config) (now : Nat) (hemail : strTruthy claims.email = false) :
    (handleOAuth claims db cfg now).1 = .error .ProviderVerificationFailed
    ∧ (handleOAuth claims db cfg now).2 = db := by
  have hv : verifyGoogleToken claims = .error .ProviderVerificationFailed := by
    unfold verifyGoogleToken
    by_cases hp : claims.present
    · simp [hp, hemail]
    · simp [hp]
  unfold handleOAuth
  rw [hv]
  exact ⟨rfl, rfl⟩

/-- Witness for C7: claims with no email are rejected and create no row. -/
theorem oauth_missing_email_rejected_witness :
    strTruthy ({ claimsMem with email := none } : GoogleClaims).email = false
    ∧ (handleOAuth { claimsMem with email := none } db0 cfg0 0).1
        = .error .ProviderVerificationFailed
    ∧ (handleOAuth { claimsMem with email := none } db0 cfg0 0).2 = db0 := by
  refine ⟨by decide, ?_⟩
  exact oauth_missing_email_rejected { claimsMem with email := none } db0 cfg0 0 (by decide)

/-- C9. The register endpoint creates the user with exactly the requested
role (Admin and Manager included), defaulting to Member only when the body
carries no role, and the created account always has isActive false. -/
theorem register_role_and_activation (d : RegisterData) (db : DB)
    (hfresh : db.users.any (fun u => u.email == d.email) = false) :
    ∃ u db2, register d db = .ok (u, db2)
      ∧ u.role = d.role.getD .Member
      ∧ u.isActive = false
      ∧ db2.users = db.users ++ [u] := by
  unfold register
  simp only [hfresh]
  exact ⟨_, _, rfl, rfl, rfl, rfl⟩

/-- Witness for C9: a fresh registration requesting the Admin role is stored
as an inactive Admin. -/
theorem register_role_and_activation_witness :
    ∃ u db2,
      register { email := "z@x.com", password := "p", name := "Zed",
                 role := some .Admin, department := none, skills := none } db0
        = .ok (u, db2)
      ∧ u.role = (some UserRole.Admin).getD .Member
      ∧ u.isActive = false
      ∧ db2.users = db0.users ++ [u] := by
  exact register_role_and_activation _ db0 (by decide)

/-- C10. The authenticate middleware accepts any request bearing a validly
signed, unexpired access token whose user id still exists, with no isActive
check at all; it fails only on a missing or malformed header, an invalid or
expired token, or a deleted user row. -/
theorem authenticate_ignores_isActive (db : DB) (cfg : Config) (now : Nat) :
    (∀ t p u, verifyAccessToken t cfg now = .ok p →
      db.users.find? (fun x => x.id == p.id) = some u →
      authenticate (.bearer t) db cfg now
        = .ok { id := u.id, email := u.email, role := u.role, name := u.name })
    ∧ authenticate .missing db cfg now = .error .NoToken
    ∧ authenticate .notBearer db cfg now = .error .NoToken
    ∧ (∀ t e, verifyAccessToken t cfg now = .error e →
      authenticate (.bearer t) db cfg now = .error .InvalidOrExpiredToken)
    ∧ (∀ t p, verifyAccessToken t cfg now = .ok p →
      db.users.find? (fun x => x.id == p.id) = none →
      authenticate (.bearer t) db cfg now = .error .UserNotFound) := by
  refine ⟨fun t p u hv hf => ?_, rfl, rfl, fun t e hv => ?_, fun t p hv hf => ?_⟩
  · simp only [authenticate]
    rw [hv]
    dsimp only
    rw [hf]
  · simp only [authenticate]
    rw [hv]
  · simp only [authenticate]
    rw [hv]
    dsimp only
    rw [hf]

/-- Witness for C10: a valid token for the deactivated Member authenticates
successfully. -/
theorem authenticate_ignores_isActive_witness :
    uMem.isActive = false
    ∧ authenticate (.bearer (generateAccessToken (payloadOf uMem) .credentials none cfg0 0))
        db0 cfg0 10
      = .ok { id := uMem.id, email := uMem.email, role := uMem.role, name := uMem.name } := by
  refine ⟨rfl, ?_⟩
  exact (authenticate_ignores_isActive db0 cfg0 10).1
    (generateAccessToken (payloadOf uMem) .credentials none cfg0 0)
    (payloadOf uMem) uMem (by rfl) (by rfl)

/-- C3 counterexample: the stored Member is inactive, yet login with the
correct email and password succeeds and issues both tokens; no
AccountInactive failure occurs. -/
theorem login_inactive_succeeds_counterexample :
    uMem.isActive = false
    ∧ login { email := "m@x.com", password := "pw" } db0 cfg0 0
      = .ok (uMem, generateAccessToken (payloadOf uMem) .credentials none cfg0 0,
             generateRefreshToken (payloadOf uMem) .credentials none cfg0 0) :=
  ⟨rfl, rfl⟩

/-- C3 amended: registration always creates users with isActive false, but
login performs no activation check: with a matching email and password it
succeeds and issues tokens even when isActive is false. -/
theorem login_ignores_isActive (creds : LoginCredentials) (db : DB)
    (cfg : Config) (now : Nat) (u : User) (rdata : RegisterData) (rdb : DB)
    (hfind : db.users.find? (fun x => x.email == creds.email) = some u)
    (hpw : comparePassword creds.password u.password = true)
    (hinactive : u.isActive = false) :
    login creds db cfg now
      = .ok (u, generateAccessToken (payloadOf u) .credentials none cfg now,
             generateRefreshToken (payloadOf u) .credentials none cfg now)
    ∧ (∀ u2 db2, register rdata rdb = .ok (u2, db2) → u2.isActive = false) := by
  constructor
  · unfold login
    rw [hfind]
    dsimp only
    simp [hpw]
  · intro u2 db2 hreg
    unfold register at hreg
    split at hreg
    · exact absurd hreg (by simp)
    · rw [Except.ok.injEq, Prod.mk.injEq] at hreg
      obtain ⟨h1, h2⟩ := hreg
      rw [← h1]

/-- Witness for the amended C3 at the concrete store. -/
theorem login_ignores_isActive_witness :
    login { email := "m@x.com", password := "pw" } db0 cfg0 0
      = .ok (uMem, generateAccessToken (payloadOf uMem) .credentials none cfg0 0,
             generateRefreshToken (payloadOf uMem) .credentials none cfg0 0)
    ∧ (∀ u2 db2,
        register { email := "z@x.com", password := "p", name := "Zed",
                   role := none, department := none, skills := none } db0
          = .ok (u2, db2) → u2.isActive = false) :=
  login_ignores_isActive { email := "m@x.com", password := "pw" } db0 cfg0 0 uMem
    { email := "z@x.com", password := "p", name := "Zed",
      role := none, department := none, skills := none } db0
    (by rfl) (by rfl) (by rfl)

/-- C4 counterexample: the asserted email belongs to the stored, deactivated
Member, yet the OAuth login succeeds and issues both tokens; no
AccountInactive failure occurs. -/
theorem oauth_inactive_succeeds_counterexample :
    uMem.isActive = false
    ∧ (handleOAuth claimsMem db0 cfg0 0).1
      = .ok { user := uMem
              accessToken := generateAccessToken (payloadOf uMem) .oauth none cfg0 0
              refreshToken := generateRefreshToken (payloadOf uMem) .oauth none cfg0 0 } :=
  ⟨rfl, rfl⟩

/-- C4 amended: when a user with the asserted email exists but is inactive,
handleOAuth performs no activation check: it resolves that user (refreshing
the avatar when changed) and issues tokens. -/
theorem handleOAuth_ignores_isActive (claims : GoogleClaims)
    (info : OAuthUserInfo) (u : User) (db : DB) (cfg : Config) (now : Nat)
    (hv : verifyGoogleToken claims = .ok info)
    (hfind : db.users.find? (fun x => x.email == info.email) = some u)
    (hinactive : u.isActive = false) :
    ∃ res db2, handleOAuth claims db cfg now = (.ok res, db2)
      ∧ res.user.id = u.id := by
  unfold handleOAuth
  rw [hv]
  dsimp only
  unfold oauthResolveUser
  rw [hfind]
  dsimp only
  split
  · exact ⟨_, _, rfl, rfl⟩
  · exact ⟨_, _, rfl, rfl⟩

/-- Witness for the amended C4 at the concrete store. -/
theorem handleOAuth_ignores_isActive_witness :
    ∃ res db2, handleOAuth claimsMem db0 cfg0 0 = (.ok res, db2)
      ∧ res.user.id = uMem.id :=
  handleOAuth_ignores_isActive claimsMem
    { email := "m@x.com", name := "M", picture := none, emailVerified := true }
    uMem db0 cfg0 0 (by rfl) (by rfl) (by rfl)

/-- Resolving a fresh OAuth identity appends exactly one user row whose
email is the asserted one and whose avatar is the asserted picture when
truthy. -/
theorem oauthResolveUser_fresh_spec (info : OAuthUserInfo) (db : DB)
    (hfresh : db.users.find? (fun x => x.email == info.email) = none) :
    (oauthResolveUser info db).1.email = info.email
    ∧ (oauthResolveUser info db).1.avatar
        = (if strTruthy info.picture then info.picture else none)
    ∧ (oauthResolveUser info db).2.users
        = db.users ++ [(oauthResolveUser info db).1]
    ∧ (oauthResolveUser info db).2.users.length = db.users.length + 1 := by
  unfold oauthResolveUser
  rw [hfresh]
  exact ⟨rfl, rfl, rfl, by simp⟩

/-- Resolving an OAuth identity that already maps to a stored user whose
avatar needs no refresh is a pure read: the store is returned unchanged. -/
theorem oauthResolveUser_stable (info : OAuthUserInfo) (db : DB) (u : User)
    (hfind : db.users.find? (fun x => x.email == info.email) = some u)
    (hcond : (strTruthy info.picture && !(info.picture == u.avatar)) = false) :
    oauthResolveUser info db = (u, db) := by
  unfold oauthResolveUser
  rw [hfind]
  dsimp only
  rw [hcond]
  simp

/-- C8. OAuth identity resolution is idempotent: starting from a store with
no user for the asserted email, the first call creates exactly one row; a
second call with the same verified identity returns the same user id,
creates no row and performs no update (the store is unchanged). -/
theorem oauth_resolution_idempotent (claims : GoogleClaims) (db : DB)
    (cfg : Config) (now now2 : Nat) (info : OAuthUserInfo)
    (hv : verifyGoogleToken claims = .ok info)
    (hfresh : db.users.find? (fun x => x.email == info.email) = none) :
    ∃ a1 a2,
      (handleOAuth claims db cfg now).1 = .ok a1
      ∧ (handleOAuth claims (handleOAuth claims db cfg now).2 cfg now2).1 = .ok a2
      ∧ a2.user.id = a1.user.id
      ∧ (handleOAuth claims db cfg now).2.users.length = db.users.length + 1
      ∧ (handleOAuth claims (handleOAuth claims db cfg now).2 cfg now2).2
          = (handleOAuth claims db cfg now).2 := by
  have hH : ∀ (d : DB) (n : Nat), handleOAuth claims d cfg n
      = (.ok { user := (oauthResolveUser info d).1
               accessToken :=
                 generateAccessToken (payloadOf (oauthResolveUser info d).1) .oauth none cfg n
               refreshToken :=
                 generateRefreshToken (payloadOf (oauthResolveUser info d).1) .oauth none cfg n },
         (oauthResolveUser info d).2) := by
    intro d n
    unfold handleOAuth
    rw [hv]
  obtain ⟨hemail, havatar, husers, hlen⟩ := oauthResolveUser_fresh_spec info db hfresh
  have hfind2 : (oauthResolveUser info db).2.users.find? (fun x => x.email == info.email)
      = some (oauthResolveUser info db).1 := by
    rw [husers, List.find?_append, hfresh]
    simp [List.find?, hemail]
  have hcond : (strTruthy info.picture
      && !(info.picture == (oauthResolveUser info db).1.avatar)) = false := by
    by_cases hpic : strTruthy info.picture
    · simp [havatar, hpic]
    · simp [hpic]
  have hstable := oauthResolveUser_stable info (oauthResolveUser info db).2
    (oauthResolveUser info db).1 hfind2 hcond
  refine ⟨{ user := (oauthResolveUser info db).1
            accessToken :=
              generateAccessToken (payloadOf (oauthResolveUser info db).1) .oauth none cfg now
            refreshToken :=
              generateRefreshToken (payloadOf (oauthResolveUser info db).1) .oauth none cfg now },
          { user := (oauthResolveUser info db).1
            accessToken :=
              generateAccessToken (payloadOf (oauthResolveUser info db).1) .oauth none cfg now2
            refreshToken :=
              generateRefreshToken (payloadOf (oauthResolveUser info db).1) .oauth none cfg now2 },
          ?_, ?_, rfl, ?_, ?_⟩
  · rw [hH db now]
  · rw [hH db now]
    dsimp only
    rw [hH ((oauthResolveUser info db).2) now2]
    dsimp only
    rw [hstable]
  · rw [hH db now]
    dsimp only
    exact hlen
  · rw [hH db now]
    dsimp only
    rw [hH ((oauthResolveUser info db).2) now2]
    dsimp only
    rw [hstable]

/-- Witness for C8 with a fresh identity. -/
theorem oauth_resolution_idempotent_witness :
    ∃ a1 a2,
      (handleOAuth claimsFresh db0 cfg0 0).1 = .ok a1
      ∧ (handleOAuth claimsFresh (handleOAuth claimsFresh db0 cfg0 0).2 cfg0 5).1 = .ok a2
      ∧ a2.user.id = a1.user.id
      ∧ (handleOAuth claimsFresh db0 cfg0 0).2.users.length = db0.users.length + 1
      ∧ (handleOAuth claimsFresh (handleOAuth claimsFresh db0 cfg0 0).2 cfg0 5).2
          = (handleOAuth claimsFresh db0 cfg0 0).2 :=
  oauth_resolution_idempotent claimsFresh db0 cfg0 0 5
    { email := "new@x.com", name := "N", picture := some "pic", emailVerified := true }
    (by rfl) (by rfl)

/-- applyUpdateData never touches the id field. -/
theorem applyUpdateData_id (d : UpdateTaskData) (s : Option TaskStatus) (t : Task) :
    (applyUpdateData d s t).id = t.id := by
  unfold applyUpdateData
  cases d.title <;> cases d.description <;> cases d.priority <;> cases s <;>
    dsimp only <;> first | (split <;> rfl) | rfl

/-- When the state machine accepted a status, applyUpdateData writes exactly it. -/
theorem applyUpdateData_status_some (d : UpdateTaskData) (s : TaskStatus) (t : Task) :
    (applyUpdateData d (some s) t).status = s := by
  unfold applyUpdateData
  cases d.title <;> cases d.description <;> cases d.priority <;>
    dsimp only <;> first | (split <;> rfl) | rfl

/-- Replacing, in a task list, every row carrying the sought id by one fixed
row that also carries it makes find? return the replacement, provided find?
succeeded before the replacement. -/
theorem find?_map_replace (l : List Task) (tid : Nat) (nt : Task)
    (hnt : (nt.id == tid) = true) (t : Task)
    (hf : l.find? (fun x => x.id == tid) = some t) :
    (l.map (fun x => if x.id == tid then nt else x)).find? (fun x => x.id == tid)
      = some nt := by
  induction l with
  | nil => simp at hf
  | cons a as ih =>
    by_cases ha : (a.id == tid) = true
    · rw [List.map_cons, if_pos ha]
      exact List.find?_cons_of_pos _ hnt
    · have ha2 : (a.id == tid) = false := by rwa [Bool.not_eq_true] at ha
      rw [List.map_cons, if_neg ha]
      simp only [List.find?, ha2] at hf ⊢
      exact ih hf

/-- C1. Done-transition policy of updateTask: a Member request changing a
task status to Done is rejected (whether the current status is Review or
not) and the store is untouched; an Admin or Manager request changing
status to Done is accepted from any current status and the stored task ends
in status Done. -/
theorem updateTask_done_transition_policy (actor : Actor) (taskId : Nat)
    (d : UpdateTaskData) (db : DB) (t : Task)
    (hfind : findTask db taskId = some t)
    (hstatus : d.status = some .Done)
    (hne : t.status ≠ .Done) :
    (actor.role = .Member →
      (updateTask actor taskId d db).1 ≠ .ok
      ∧ (updateTask actor taskId d db).2 = db)
    ∧ (isAdminOrManager actor.role = true → d.assigneeIds = none →
      (updateTask actor taskId d db).1 = .ok
      ∧ ∃ t2, findTask (updateTask actor taskId d db).2 taskId = some t2
          ∧ t2.status = .Done) := by
  have hDone : (TaskStatus.Done == t.status) = false := by
    rw [beq_eq_false_iff_ne]
    exact fun h => hne h.symm
  constructor
  · intro hrole
    have hAM : isAdminOrManager actor.role = false := by
      simp [isAdminOrManager, hrole]
    unfold updateTask
    rw [hfind]
    dsimp only
    rw [hAM]
    simp only [Bool.not_false, Bool.true_and]
    by_cases hgate : (!(t.creatorId == actor.id) && !(isAssigned db taskId actor.id)) = true
    · rw [if_pos hgate]
      exact ⟨by simp, rfl⟩
    · rw [if_neg hgate]
      rw [hstatus]
      dsimp only
      rw [hDone]
      simp only [Bool.false_eq_true, if_false]
      simp only [beq_self_eq_true, Bool.true_and, Bool.and_true]
      by_cases hrev : (t.status == TaskStatus.Review) = true
      · rw [if_pos hrev]
        exact ⟨by simp, rfl⟩
      · rw [if_neg hrev]
        have hrev2 : (t.status == TaskStatus.Review) = false := by
          rwa [Bool.not_eq_true] at hrev
        simp only [hrev2, Bool.not_false, if_pos]
        exact ⟨by simp, by first | rfl | trivial⟩
  · intro hAM hids
    unfold updateTask
    rw [hfind]
    dsimp only
    rw [hAM]
    simp only [Bool.not_true, Bool.false_and, Bool.and_false, Bool.false_eq_true, if_false]
    rw [hstatus]
    dsimp only
    rw [hDone]
    simp only [Bool.false_eq_true, if_false]
    rw [hids]
    dsimp only
    have hid : (t.id == taskId) = true := by
      unfold findTask at hfind
      have h2 := List.find?_some hfind
      simpa using h2
    refine ⟨rfl, applyUpdateData d (some .Done) t, ?_, applyUpdateData_status_some d .Done t⟩
    unfold findTask
    dsimp only
    refine find?_map_replace db.tasks taskId (applyUpdateData d (some .Done) t) ?_ t ?_
    · rw [applyUpdateData_id]
      exact hid
    · unfold findTask at hfind
      exact hfind

/-- Witness for C1: the Member request ToDo to Done is rejected with the
store unchanged; the Manager request forces the same task to Done. -/
theorem updateTask_done_transition_policy_witness :
    ((updateTask memActor 10 { emptyUpd with status := some .Done } db0).1
        ≠ HandlerResult.ok
      ∧ (updateTask memActor 10 { emptyUpd with status := some .Done } db0).2 = db0)
    ∧ ((updateTask mgrActor 10 { emptyUpd with status := some .Done } db0).1 = .ok
      ∧ ∃ t2,
          findTask (updateTask mgrActor 10 { emptyUpd with status := some .Done } db0).2 10
            = some t2
          ∧ t2.status = .Done) := by
  have h1 := updateTask_done_transition_policy memActor 10
    { emptyUpd with status := some .Done } db0 t10 (by rfl) (by rfl) (by decide)
  have h2 := updateTask_done_transition_policy mgrActor 10
    { emptyUpd with status := some .Done } db0 t10 (by rfl) (by rfl) (by decide)
  exact ⟨h1.1 rfl, h2.2 (by rfl) rfl⟩

/-- C2 counterexample: a Manager update carrying both a title change and an
assignee list naming the Admin is answered with the forbidden-assignment
error, yet the title change has been persisted (the stored title is now b,
no longer a) — the update is not all-or-nothing. -/
theorem updateTask_atomicity_counterexample :
    (updateTask mgrActor 10
        { emptyUpd with title := some "b", assigneeIds := some [3] } db0).1
      = .forbidden "Managers cannot assign tasks to Administrators"
    ∧ ((updateTask mgrActor 10
        { emptyUpd with title := some "b", assigneeIds := some [3] } db0).2.tasks.map
          Task.title) = ["b"]
    ∧ db0.tasks.map Task.title = ["a"] :=
  ⟨rfl, rfl, rfl⟩

/-- C2 amended: a Manager task update whose assignee list names an Admin is
rejected with the forbidden-assignment error and the assignment table is
left exactly as it was (the assignee batch is all-or-nothing); the scalar
fields updated by the same request, however, are persisted before the
rejection. -/
theorem updateTask_assignee_rejection_assignments_unchanged (actor : Actor)
    (taskId : Nat) (d : UpdateTaskData) (db : DB) (t : Task) (ids : List Nat)
    (hrole : actor.role = .Manager)
    (hfind : findTask db taskId = some t)
    (hids : d.assigneeIds = some ids)
    (hadmin : db.users.any (fun u => ids.contains u.id && u.role == .Admin) = true) :
    (updateTask actor taskId d db).1
      = .forbidden "Managers cannot assign tasks to Administrators"
    ∧ (updateTask actor taskId d db).2.assignments = db.assignments := by
  have hAM : isAdminOrManager actor.role = true := by
    simp [isAdminOrManager, hrole]
  have hMgr : (actor.role == UserRole.Manager) = true := by
    simp [hrole]
  unfold updateTask
  rw [hfind]
  dsimp only
  rw [hAM]
  simp only [Bool.not_true, Bool.false_and, Bool.and_false, Bool.false_eq_true, if_false]
  rcases hds : d.status with _ | s
  · dsimp only
    rw [hids]
    dsimp only
    rw [hMgr]
    simp only [Bool.true_and]
    rw [hadmin]
    simp only [if_pos]
    constructor <;> first | rfl | trivial
  · dsimp only
    by_cases hsame : (s == t.status) = true
    · rw [if_pos hsame]
      dsimp only
      rw [hids]
      dsimp only
      rw [hMgr]
      simp only [Bool.true_and]
      rw [hadmin]
      simp only [if_pos]
      constructor <;> first | rfl | trivial
    · rw [if_neg hsame]
      dsimp only
      rw [hids]
      dsimp only
      rw [hMgr]
      simp only [Bool.true_and]
      rw [hadmin]
      simp only [if_pos]
      constructor <;> first | rfl | trivial

/-- Witness for the amended C2 at the concrete store. -/
theorem updateTask_assignee_rejection_assignments_unchanged_witness :
    (updateTask mgrActor 10
        { emptyUpd with title := some "b", assigneeIds := some [3] } db0).1
      = .forbidden "Managers cannot assign tasks to Administrators"
    ∧ (updateTask mgrActor 10
        { emptyUpd with title := some "b", assigneeIds := some [3] } db0).2.assignments
      = db0.assignments :=
  updateTask_assignee_rejection_assignments_unchanged mgrActor 10
    { emptyUpd with title := some "b", assigneeIds := some [3] } db0 t10 [3]
    rfl rfl rfl (by rfl)

/-- C5 counterexample: for the Member caller the filtered result set is not
the same regardless of other query parameters: with no parameters the task
read returns exactly the creator/assignee union, but adding status=Done to
the same request changes the result from that union to the empty list. -/
theorem getTasks_query_params_counterexample :
    getTasks memActor noTaskFilters db0 = [t10]
    ∧ db0.tasks.filter (taskOwnershipB db0 memActor.id) = [t10]
    ∧ getTasks memActor { noTaskFilters with status := some .Done } db0 = [] :=
  ⟨rfl, rfl, rfl⟩

/-- For a non-Admin/Manager caller the task where object always carries the
ownership OR clause, whatever other filters were supplied. -/
theorem buildTaskWhere_nonAM (actor : Actor) (f : TaskFilters)
    (hAM : isAdminOrManager actor.role = false) :
    buildTaskWhere actor f
      = { sprintId := f.sprintId, projectId := f.projectId,
          assigneeId := f.assigneeId, status := f.status,
          priority := f.priority,
          orClause := some (.ownership actor.id) } := by
  unfold buildTaskWhere
  rw [hAM]
  rcases f.search with _ | s
  · rfl
  · dsimp only
    by_cases hse : (s == "") = true
    · rw [if_pos hse]
      rfl
    · rw [if_neg hse]
      rfl

/-- For every non-Admin caller the project where object always carries the
ownership OR clause. -/
theorem buildProjectWhere_nonAdmin (actor : Actor) (f : ProjectFilters)
    (hA : (actor.role == UserRole.Admin) = false) :
    buildProjectWhere actor f
      = { status := f.status,
          client := (match f.client with
            | some c => if c == "" then none else some c
            | none => none),
          orClause := some (.ownership actor.id) } := by
  unfold buildProjectWhere
  rw [hA]
  rcases f.search with _ | s
  · rfl
  · dsimp only
    by_cases hse : (s == "") = true
    · rw [if_pos hse]
      rfl
    · rw [if_neg hse]
      rfl

/-- C5 amended: for non-Admin/Manager callers the creator/assignee union is
enforced as a mandatory filter: with no query parameters the task
collection is exactly the union; every task any parameterised query returns
lies in the union; the search parameter is ignored for such callers (its OR
clause is overwritten by the ownership clause) while other parameters
narrow the result; the single-task read outside the union is denied; and
the project collection filter applies to every non-Admin caller (Managers
included), its union extended with projects the caller manages. -/
theorem read_visibility_union_filters (db : DB) (actor : Actor) :
    (isAdminOrManager actor.role = false →
      getTasks actor noTaskFilters db = db.tasks.filter (taskOwnershipB db actor.id))
    ∧ (∀ (f : TaskFilters) (t : Task), isAdminOrManager actor.role = false →
        t ∈ getTasks actor f db → taskOwnershipB db actor.id t = true)
    ∧ (∀ (f : TaskFilters) (s : String), isAdminOrManager actor.role = false →
        getTasks actor { f with search := some s } db
          = getTasks actor { f with search := none } db)
    ∧ (∀ (taskId : Nat) (t : Task), isAdminOrManager actor.role = false →
        findTask db taskId = some t →
        (t.creatorId == actor.id || isAssigned db t.id actor.id) = false →
        getTaskById actor taskId db = .error .Forbidden)
    ∧ (actor.role ≠ .Admin →
      getProjects actor noProjectFilters db
        = db.projects.filter (projectOwnershipB db actor.id)) := by
  refine ⟨?_, ?_, ?_, ?_, ?_⟩
  · intro hAM
    unfold getTasks
    rw [buildTaskWhere_nonAM actor noTaskFilters hAM]
    apply List.filter_congr
    intro x hx
    unfold matchesTaskWhere
    simp [noTaskFilters]
  · intro f t hAM hmem
    unfold getTasks at hmem
    rw [List.mem_filter] at hmem
    have hmatch := hmem.2
    rw [buildTaskWhere_nonAM actor f hAM] at hmatch
    unfold matchesTaskWhere at hmatch
    simp only [Bool.and_eq_true] at hmatch
    exact hmatch.2
  · intro f s hAM
    unfold getTasks
    rw [buildTaskWhere_nonAM actor _ hAM, buildTaskWhere_nonAM actor _ hAM]
  · intro taskId t hAM hfind hown
    unfold getTaskById
    rw [hfind]
    dsimp only
    rw [hAM]
    simp [hown]
  · intro hadm
    have hA : (actor.role == UserRole.Admin) = false := by
      rw [beq_eq_false_iff_ne]
      exact hadm
    unfold getProjects
    rw [buildProjectWhere_nonAdmin actor noProjectFilters hA]
    apply List.filter_congr
    intro x hx
    unfold matchesProjectWhere
    simp [noProjectFilters]

/-- Witness for the amended C5 at the concrete store. -/
theorem read_visibility_union_filters_witness :
    getTasks memActor noTaskFilters dbB = dbB.tasks.filter (taskOwnershipB dbB memActor.id)
    ∧ getTaskById memActor 11 dbB = .error .Forbidden
    ∧ getProjects memActor noProjectFilters dbB
        = dbB.projects.filter (projectOwnershipB dbB memActor.id) := by
  have h := read_visibility_union_filters dbB memActor
  exact ⟨h.1 (by rfl), h.2.2.2.1 11 t11 (by rfl) (by rfl) (by rfl),
         h.2.2.2.2 (by decide)⟩

end PMS
